import Mathlib

/-!
Verification development for the `rubust` Java class-file decompiler.

The definitions below are shallow embeddings of the Rust sources:
  * `src/io.rs`            — big-endian primitive readers over a byte cursor
  * `src/class/op.rs`      — the bytecode instruction set and decoder
  * `src/class/constant.rs`— the constant pool and its readers/resolvers
  * `src/class/class.rs`   — `ClassPath`
  * `src/class/descriptor.rs` — the descriptor mini-language
  * `src/decomp/ast.rs`    — the stack lifter (`Block::decompile`) and the
                             control-flow-graph builder (`gen_control_flow_graph`)

Machine integers are modelled as `Nat`/`Int` with the Rust casts made explicit
(`u16ofInt` models `as u16`, i.e. truncation mod 2^16, and so on).  `f32`/`f64`
values are carried as their raw big-endian bit patterns (no claim inspects
float semantics).  Rust panics (index out of bounds, checked-arithmetic
overflow, `unwrap` on `None`) are modelled as a distinguished error outcome
(`DecompileErr.panicked`, or `none` for the CFG builder); `unimplemented!` is
modelled as `DecompileErr.unimplementedOp`.  Recursions whose Rust originals
are loops are given an explicit fuel argument so that every definition reduces
definitionally; the callers supply fuel that the loop, consuming input at every
step, can never exhaust.
-/

/-- Rust `as i8` applied to a `u8` value. -/
def i8ofU8 (n : Nat) : Int :=
  if n < 0x80 then (n : Int) else (n : Int) - 0x100

/-- Rust `as i16` applied to a `u16` value. -/
def i16ofU16 (n : Nat) : Int :=
  if n < 0x8000 then (n : Int) else (n : Int) - 0x10000

/-- Rust `as i32` applied to a `u32` value. -/
def i32ofU32 (n : Nat) : Int :=
  if n < 0x80000000 then (n : Int) else (n : Int) - 0x100000000

/-- Rust `as i64` applied to a `u64` value. -/
def i64ofU64 (n : Nat) : Int :=
  if n < 0x8000000000000000 then (n : Int) else (n : Int) - 0x10000000000000000

/-- Rust `as u16` applied to a signed value: two's-complement truncation. -/
def u16ofInt (z : Int) : Nat :=
  (z % 0x10000).toNat

/-- Rust `as u32` applied to a signed value: two's-complement truncation. -/
def u32ofInt (z : Int) : Nat :=
  (z % 0x100000000).toNat

/-- A `Cursor<Vec<u8>>` mid-read: `consumed` is `cursor.position()` and `rest`
the bytes not yet read.  (`src/io.rs` reads all primitives sequentially.) -/
structure Reader where
  consumed : Nat
  rest : List Nat
  deriving DecidableEq, Repr

/-- Models `ReadError` (src/error.rs); `ioEof` models the underlying `io::Error` on a
short read.  `outOfFuel` is an unreachable sentinel used by fueled loops. -/
inductive ReadErr where
  | ioEof
  | unknownConstantTag (tag : Nat)
  | invalidMagic (v : Nat)
  | outOfFuel
  deriving DecidableEq, Repr

/-- Models `u8::read` (src/io.rs). -/
def rdU8 (r : Reader) : Except ReadErr (Nat × Reader) :=
  match r.rest with
  | [] => .error .ioEof
  | b :: t => .ok (b, ⟨r.consumed + 1, t⟩)

/-- Models `u16::read` (src/io.rs, big-endian). -/
def rdU16 (r : Reader) : Except ReadErr (Nat × Reader) := do
  let (b1, r) ← rdU8 r
  let (b2, r) ← rdU8 r
  .ok (b1 * 256 + b2, r)

/-- Models `u32::read` (src/io.rs, big-endian). -/
def rdU32 (r : Reader) : Except ReadErr (Nat × Reader) := do
  let (b1, r) ← rdU8 r
  let (b2, r) ← rdU8 r
  let (b3, r) ← rdU8 r
  let (b4, r) ← rdU8 r
  .ok (((b1 * 256 + b2) * 256 + b3) * 256 + b4, r)

/-- Models `u64::read` (src/io.rs, big-endian); basis for `i64`/`f64` reads. -/
def rdU64 (r : Reader) : Except ReadErr (Nat × Reader) := do
  let (hi, r) ← rdU32 r
  let (lo, r) ← rdU32 r
  .ok (hi * 0x100000000 + lo, r)

/-- Models `i32::read` (src/io.rs, big-endian, two's complement). -/
def rdI32 (r : Reader) : Except ReadErr (Int × Reader) := do
  let (w, r) ← rdU32 r
  .ok (i32ofU32 w, r)

/-- Models `i64::read` (src/io.rs, big-endian, two's complement). -/
def rdI64 (r : Reader) : Except ReadErr (Int × Reader) := do
  let (w, r) ← rdU64 r
  .ok (i64ofU64 w, r)

/-- Models `ArrayType` (src/class/op.rs). -/
inductive ArrayType where
  | boolean | char | float | double | byte | short | int | long
  deriving DecidableEq, Repr

/-- Models `Instr` (src/class/op.rs).  `u16` indices are `Nat`; signed immediates are
`Int`; `FConst`/`DConst` carry IEEE bit patterns as `Nat`. -/
inductive Instr where
  | saLoad
  | tableSwitch (default low high : Nat) (offsets : List Nat)
  | swap
  | saStore
  | biPush (v : Int)
  | siPush (v : Int)
  | newArray (t : ArrayType)
  | pop2
  | iconst (v : Int)
  | fconst (bits : Nat)
  | dconst (bits : Nat)
  | lconst (v : Int)
  | iadd
  | fadd
  | invokeSpecial (i : Nat)
  | invokeStatic (i : Nat)
  | invokeVirtual (i : Nat)
  | invokeInterface (i : Nat)
  | putField (i : Nat)
  | getField (i : Nat)
  | putStatic (i : Nat)
  | return_
  | dup
  | dupX1
  | dupX2
  | dup2
  | dup2X1
  | dup2X2
  | pop
  | dadd
  | ddiv
  | d2i
  | d2f
  | d2l
  | aReturn
  | checkCast (i : Nat)
  | f2i
  | aconstNull
  | loadConst (i : Nat)
  | dcmpL
  | dcmpG
  | arrayLength
  | aThrow
  | daLoad
  | caLoad
  | baLoad
  | aaLoad
  | faLoad
  | daStore
  | caStore
  | baStore
  | aaStore
  | faStore
  | aNewArray (i : Nat)
  | dmul
  | dneg
  | drem
  | dReturn
  | fsub
  | fmul
  | fneg
  | frem
  | fReturn
  | fcmpL
  | fcmpG
  | dsub
  | fdiv
  | getStatic (i : Nat)
  | f2l
  | f2d
  | i2l
  | i2d
  | i2s
  | i2c
  | i2b
  | i2f
  | iaLoad
  | iaStore
  | imul
  | idiv
  | iand
  | ineg
  | instanceOf (i : Nat)
  | invokeDynamic (i : Nat)
  | l2i
  | l2d
  | l2f
  | laLoad
  | laStore
  | ladd
  | land
  | lor
  | lxor
  | lsub
  | lmul
  | ldiv
  | isub
  | irem
  | lneg
  | ishL
  | ishR
  | iushR
  | ior
  | ixor
  | lcmp
  | iReturn
  | lReturn
  | lrem
  | lshL
  | lshR
  | lushR
  | lookupSwitch (default : Nat) (pairs : List (Int × Nat))
  | nop
  | monitorEnter
  | monitorExit
  | multiANewArray (index : Nat) (dimensions : Nat)
  | new (i : Nat)
  | ret (i : Nat)
  | aStore (i : Nat)
  | lStore (i : Nat)
  | iStore (i : Nat)
  | dStore (i : Nat)
  | fStore (i : Nat)
  | fLoad (i : Nat)
  | iLoad (i : Nat)
  | aLoad (i : Nat)
  | dLoad (i : Nat)
  | lLoad (i : Nat)
  | iinc (index : Nat) (value : Int)
  | ifACmpEq (b : Nat)
  | ifACmpNe (b : Nat)
  | ifICmpEq (b : Nat)
  | ifICmpNe (b : Nat)
  | ifICmpLt (b : Nat)
  | ifICmpGe (b : Nat)
  | ifICmpGt (b : Nat)
  | ifICmpLe (b : Nat)
  | ifNull (b : Nat)
  | ifNonNull (b : Nat)
  | ifEq (b : Nat)
  | ifNe (b : Nat)
  | ifLt (b : Nat)
  | ifGe (b : Nat)
  | ifGt (b : Nat)
  | ifLe (b : Nat)
  | goto (b : Nat)
  | jsr (b : Nat)

/-- Models `ConstantError` (src/error.rs). -/
inductive ConstantErr where
  | notFound (i : Nat)
  | expectedUtf8 (i : Nat)
  | invalidClassReference (i : Nat)
  | expectedMethodRef (i : Nat)
  | expectedInvokeDynamic (i : Nat)
  deriving DecidableEq, Repr

/-- Models `StackError` (src/error.rs). -/
inductive StackErr where
  | empty
  | remaining (n : Nat)
  | notEnough (need had : Nat)
  deriving DecidableEq, Repr

/-- Models `DecompileError` (src/error.rs).  The two extra constructors model Rust
control effects that are not error-enum variants: `panicked` stands for a
panic (out-of-bounds `Vec` index/insert, checked-arithmetic overflow, `unwrap`
of `None`), and `unimplementedOp` for `unimplemented!`. -/
inductive DecompileErr where
  | readErr (e : ReadErr)
  | unknownArrayType (t : Nat)
  | unknownInstruction (op : Nat)
  | expectedMethodDescriptor
  | invalidConstant (e : ConstantErr)
  | stackError (e : StackErr)
  | panicked
  | unimplementedOp
  deriving DecidableEq, Repr

/-- A byte read inside the decoder (the `?` conversion `ReadError →
`DecompileError`). -/
def dU8 (r : Reader) : Except DecompileErr (Nat × Reader) :=
  (rdU8 r).mapError .readErr

def dU16 (r : Reader) : Except DecompileErr (Nat × Reader) :=
  (rdU16 r).mapError .readErr

def dU32 (r : Reader) : Except DecompileErr (Nat × Reader) :=
  (rdU32 r).mapError .readErr

/-- Models `if wide { u16::read(i)? } else { u8::read(i)? as u16 }` (src/class/op.rs). -/
def readIndex (wide : Bool) (r : Reader) : Except DecompileErr (Nat × Reader) :=
  if wide then dU16 r else dU8 r

/-- Models `(pos + ((u16::read(i)? as i16) as i32)) as u16` — the 16-bit
branch-target resolution expression of `Instr::read_instr`. -/
def readBranch16 (r : Reader) (pos : Int) : Except DecompileErr (Nat × Reader) := do
  let (w, r) ← dU16 r
  .ok (u16ofInt (pos + i16ofU16 w), r)

/-- Models `(pos + (u32::read(i)? as i32)) as u16` — the 32-bit (GOTO_W/JSR_W)
branch-target resolution expression of `Instr::read_instr`. -/
def readBranch32 (r : Reader) (pos : Int) : Except DecompileErr (Nat × Reader) := do
  let (w, r) ← dU32 r
  .ok (u16ofInt (pos + i32ofU32 w), r)

/-- Models `(pos + (u32::read(i)? as i32)) as u32` — switch-target resolution. -/
def readSwitchTarget (r : Reader) (pos : Int) : Except DecompileErr (Nat × Reader) := do
  let (w, r) ← dU32 r
  .ok (u32ofInt (pos + i32ofU32 w), r)

/-- The padding-skip loop of the `TABLESWITCH`/`LOOKUPSWITCH` arms: read and
discard `n` bytes. -/
def skipBytes : Nat → Reader → Except DecompileErr Reader
  | 0, r => .ok r
  | n + 1, r => do
    let (_, r) ← dU8 r
    skipBytes n r

/-- The `for _ in low..=high` offset loop of the `TABLESWITCH` arm, reading
`count` resolved switch targets. -/
def readSwitchOffsets : Nat → Reader → Int → Except DecompileErr (List Nat × Reader)
  | 0, r, _ => .ok ([], r)
  | n + 1, r, pos => do
    let (t, r) ← readSwitchTarget r pos
    let (ts, r) ← readSwitchOffsets n r pos
    .ok (t :: ts, r)

/-- The `for _ in 0..count` pair loop of the `LOOKUPSWITCH` arm. -/
def readSwitchPairs : Nat → Reader → Int → Except DecompileErr (List (Int × Nat) × Reader)
  | 0, r, _ => .ok ([], r)
  | n + 1, r, pos => do
    let (k, r) ← dU32 r
    let (t, r) ← readSwitchTarget r pos
    let (ps, r) ← readSwitchPairs n r pos
    .ok ((i32ofU32 k, t) :: ps, r)

/-- The `TABLESWITCH` (0xaa) arm of `Instr::read_instr`: skip the 4-byte
alignment padding, read the resolved default, then `low`, `high`, and the
`high - low + 1` resolved case targets. -/
def readTableSwitchArm (i : Reader) (pos : Int) : Except DecompileErr (Instr × Reader) := do
  -- `let pad = (1 + ((i.position() - 1) / 4)) * 4 - i.position();`
  let pad := (1 + ((i.consumed - 1) / 4)) * 4 - i.consumed
  let i ← skipBytes pad i
  let (d, i) ← readSwitchTarget i pos
  let (low, i) ← dU32 i
  let (high, i) ← dU32 i
  let count := if low ≤ high then high - low + 1 else 0
  let (offsets, i) ← readSwitchOffsets count i pos
  .ok (.tableSwitch d low high offsets, i)

/-- The `LOOKUPSWITCH` (0xab) arm of `Instr::read_instr`: padding, resolved
default, pair count, then that many `(key, resolved target)` pairs. -/
def readLookupSwitchArm (i : Reader) (pos : Int) : Except DecompileErr (Instr × Reader) := do
  let pad := (1 + ((i.consumed - 1) / 4)) * 4 - i.consumed
  let i ← skipBytes pad i
  let (d, i) ← readSwitchTarget i pos
  let (count, i) ← dU32 i
  let (pairs, i) ← readSwitchPairs count i pos
  .ok (.lookupSwitch d pairs, i)

/-- Models `Instr::read_instr` (src/class/op.rs).  The fuel bounds the `WIDE`-prefix
recursion (opcode 0xc4 re-enters the decoder); every step consumes at least
one byte, so the caller-supplied fuel `rest.length + 1` never runs out. -/
def readInstrF : Nat → Reader → Bool → Int → Except DecompileErr (Instr × Reader)
  | 0, _, _, _ => .error .panicked
  | fuel + 1, i, wide, pos => do
    let (code, i) ← dU8 i
    match code with
    | 0x0 => .ok (.nop, i)
    | 0x1 => .ok (.aconstNull, i)
    | 0x2 => .ok (.iconst (-1), i)
    | 0x3 => .ok (.iconst 0, i)
    | 0x4 => .ok (.iconst 1, i)
    | 0x5 => .ok (.iconst 2, i)
    | 0x6 => .ok (.iconst 3, i)
    | 0x7 => .ok (.iconst 4, i)
    | 0x8 => .ok (.iconst 5, i)
    | 0x9 => .ok (.lconst 0, i)
    | 0xa => .ok (.lconst 1, i)
    | 0xb => .ok (.fconst 0x00000000, i)
    | 0xc => .ok (.fconst 0x3F800000, i)
    | 0xd => .ok (.fconst 0x40000000, i)
    | 0xe => .ok (.dconst 0x0000000000000000, i)
    | 0xf => .ok (.dconst 0x3FF0000000000000, i)
    | 0x10 => do
      let (b, i) ← dU8 i
      .ok (.biPush (i8ofU8 b), i)
    | 0x11 => do
      let (w, i) ← dU16 i
      .ok (.siPush (i16ofU16 w), i)
    | 0x12 => do
      let (b, i) ← dU8 i
      .ok (.loadConst b, i)
    | 0x13 => do
      let (w, i) ← dU16 i
      .ok (.loadConst w, i)
    | 0x14 => do
      let (w, i) ← dU16 i
      .ok (.loadConst w, i)
    | 0x15 => do
      let (n, i) ← readIndex wide i
      .ok (.iLoad n, i)
    | 0x16 => do
      let (n, i) ← readIndex wide i
      .ok (.lLoad n, i)
    | 0x17 => do
      let (n, i) ← readIndex wide i
      .ok (.fLoad n, i)
    | 0x18 => do
      let (n, i) ← readIndex wide i
      .ok (.dLoad n, i)
    | 0x19 => do
      let (n, i) ← readIndex wide i
      .ok (.aLoad n, i)
    | 0x1a => .ok (.iLoad 0, i)
    | 0x1b => .ok (.iLoad 1, i)
    | 0x1c => .ok (.iLoad 2, i)
    | 0x1d => .ok (.iLoad 3, i)
    | 0x1e => .ok (.lLoad 0, i)
    | 0x1f => .ok (.lLoad 1, i)
    | 0x20 => .ok (.lLoad 2, i)
    | 0x21 => .ok (.lLoad 3, i)
    | 0x22 => .ok (.fLoad 0, i)
    | 0x23 => .ok (.fLoad 1, i)
    | 0x24 => .ok (.fLoad 2, i)
    | 0x25 => .ok (.fLoad 3, i)
    | 0x26 => .ok (.dLoad 0, i)
    | 0x27 => .ok (.dLoad 1, i)
    | 0x28 => .ok (.dLoad 2, i)
    | 0x29 => .ok (.dLoad 3, i)
    | 0x2a => .ok (.aLoad 0, i)
    | 0x2b => .ok (.aLoad 1, i)
    | 0x2c => .ok (.aLoad 2, i)
    | 0x2d => .ok (.aLoad 3, i)
    | 0x2e => .ok (.iaLoad, i)
    | 0x2f => .ok (.laLoad, i)
    | 0x30 => .ok (.faLoad, i)
    | 0x31 => .ok (.daLoad, i)
    | 0x32 => .ok (.aaLoad, i)
    | 0x33 => .ok (.baLoad, i)
    | 0x34 => .ok (.caLoad, i)
    | 0x35 => .ok (.saLoad, i)
    | 0x36 => do
      let (n, i) ← readIndex wide i
      .ok (.iStore n, i)
    | 0x37 => do
      let (n, i) ← readIndex wide i
      .ok (.lStore n, i)
    | 0x38 => do
      let (n, i) ← readIndex wide i
      .ok (.fStore n, i)
    | 0x39 => do
      let (n, i) ← readIndex wide i
      .ok (.dStore n, i)
    | 0x3a => do
      let (n, i) ← readIndex wide i
      .ok (.aStore n, i)
    | 0x3b => .ok (.iStore 0, i)
    | 0x3c => .ok (.iStore 1, i)
    | 0x3d => .ok (.iStore 2, i)
    | 0x3e => .ok (.iStore 3, i)
    | 0x3f => .ok (.lStore 0, i)
    | 0x40 => .ok (.lStore 1, i)
    | 0x41 => .ok (.lStore 2, i)
    | 0x42 => .ok (.lStore 3, i)
    | 0x43 => .ok (.fStore 0, i)
    | 0x44 => .ok (.fStore 1, i)
    | 0x45 => .ok (.fStore 2, i)
    | 0x46 => .ok (.fStore 3, i)
    | 0x47 => .ok (.dStore 0, i)
    | 0x48 => .ok (.dStore 1, i)
    | 0x49 => .ok (.dStore 2, i)
    | 0x4a => .ok (.dStore 3, i)
    | 0x4b => .ok (.aStore 0, i)
    | 0x4c => .ok (.aStore 1, i)
    | 0x4d => .ok (.aStore 2, i)
    | 0x4e => .ok (.aStore 3, i)
    | 0x4f => .ok (.iaStore, i)
    | 0x50 => .ok (.laStore, i)
    | 0x51 => .ok (.faStore, i)
    | 0x52 => .ok (.daStore, i)
    | 0x53 => .ok (.aaStore, i)
    | 0x54 => .ok (.baStore, i)
    | 0x55 => .ok (.caStore, i)
    | 0x56 => .ok (.saStore, i)
    | 0x57 => .ok (.pop, i)
    | 0x58 => .ok (.pop2, i)
    | 0x59 => .ok (.dup, i)
    | 0x5a => .ok (.dupX1, i)
    | 0x5b => .ok (.dupX2, i)
    | 0x5c => .ok (.dup2, i)
    | 0x5d => .ok (.dup2X1, i)
    | 0x5e => .ok (.dup2X2, i)
    | 0x5f => .ok (.swap, i)
    | 0x60 => .ok (.iadd, i)
    | 0x61 => .ok (.ladd, i)
    | 0x62 => .ok (.fadd, i)
    | 0x63 => .ok (.dadd, i)
    | 0x64 => .ok (.isub, i)
    | 0x65 => .ok (.lsub, i)
    | 0x66 => .ok (.fsub, i)
    | 0x67 => .ok (.dsub, i)
    | 0x68 => .ok (.imul, i)
    | 0x69 => .ok (.lmul, i)
    | 0x6a => .ok (.fmul, i)
    | 0x6b => .ok (.dmul, i)
    | 0x6c => .ok (.idiv, i)
    | 0x6d => .ok (.ldiv, i)
    | 0x6e => .ok (.fdiv, i)
    | 0x6f => .ok (.ddiv, i)
    | 0x70 => .ok (.irem, i)
    | 0x71 => .ok (.lrem, i)
    | 0x72 => .ok (.frem, i)
    | 0x73 => .ok (.drem, i)
    | 0x74 => .ok (.ineg, i)
    | 0x75 => .ok (.lneg, i)
    | 0x76 => .ok (.fneg, i)
    | 0x77 => .ok (.dneg, i)
    | 0x78 => .ok (.ishL, i)
    | 0x79 => .ok (.lshL, i)
    | 0x7a => .ok (.ishR, i)
    | 0x7b => .ok (.lshR, i)
    | 0x7c => .ok (.iushR, i)
    | 0x7d => .ok (.lushR, i)
    | 0x7e => .ok (.iand, i)
    | 0x7f => .ok (.land, i)
    | 0x80 => .ok (.ior, i)
    | 0x81 => .ok (.lor, i)
    | 0x82 => .ok (.ixor, i)
    | 0x83 => .ok (.lxor, i)
    | 0x84 => do
      let (n, i) ← readIndex wide i
      if wide then do
        let (w, i) ← dU16 i
        .ok (.iinc n (i16ofU16 w), i)
      else do
        let (b, i) ← dU8 i
        .ok (.iinc n (i8ofU8 b), i)
    | 0x85 => .ok (.i2l, i)
    | 0x86 => .ok (.i2f, i)
    | 0x87 => .ok (.i2d, i)
    | 0x88 => .ok (.l2i, i)
    | 0x89 => .ok (.l2f, i)
    | 0x8a => .ok (.l2d, i)
    | 0x8b => .ok (.f2i, i)
    | 0x8c => .ok (.f2l, i)
    | 0x8d => .ok (.f2d, i)
    | 0x8e => .ok (.d2i, i)
    | 0x8f => .ok (.d2l, i)
    | 0x90 => .ok (.d2f, i)
    | 0x91 => .ok (.i2b, i)
    | 0x92 => .ok (.i2c, i)
    | 0x93 => .ok (.i2s, i)
    | 0x94 => .ok (.lcmp, i)
    | 0x95 => .ok (.fcmpL, i)
    | 0x96 => .ok (.fcmpG, i)
    | 0x97 => .ok (.dcmpL, i)
    | 0x98 => .ok (.dcmpG, i)
    | 0x99 => do
      let (t, i) ← readBranch16 i pos
      .ok (.ifEq t, i)
    | 0x9a => do
      let (t, i) ← readBranch16 i pos
      .ok (.ifNe t, i)
    | 0x9b => do
      let (t, i) ← readBranch16 i pos
      .ok (.ifLt t, i)
    | 0x9c => do
      let (t, i) ← readBranch16 i pos
      .ok (.ifGe t, i)
    | 0x9d => do
      let (t, i) ← readBranch16 i pos
      .ok (.ifGt t, i)
    | 0x9e => do
      let (t, i) ← readBranch16 i pos
      .ok (.ifLe t, i)
    | 0x9f => do
      let (t, i) ← readBranch16 i pos
      .ok (.ifICmpEq t, i)
    | 0xa0 => do
      let (t, i) ← readBranch16 i pos
      .ok (.ifICmpNe t, i)
    | 0xa1 => do
      let (t, i) ← readBranch16 i pos
      .ok (.ifICmpLt t, i)
    | 0xa2 => do
      let (t, i) ← readBranch16 i pos
      .ok (.ifICmpGe t, i)
    | 0xa3 => do
      let (t, i) ← readBranch16 i pos
      .ok (.ifICmpGt t, i)
    | 0xa4 => do
      let (t, i) ← readBranch16 i pos
      .ok (.ifICmpLe t, i)
    | 0xa5 => do
      let (t, i) ← readBranch16 i pos
      .ok (.ifACmpEq t, i)
    | 0xa6 => do
      let (t, i) ← readBranch16 i pos
      .ok (.ifACmpNe t, i)
    | 0xa7 => do
      let (t, i) ← readBranch16 i pos
      .ok (.goto t, i)
    | 0xa8 => do
      let (t, i) ← readBranch16 i pos
      .ok (.jsr t, i)
    | 0xa9 => do
      let (n, i) ← readIndex wide i
      .ok (.ret n, i)
    | 0xaa => readTableSwitchArm i pos
    | 0xab => readLookupSwitchArm i pos
    | 0xac => .ok (.iReturn, i)
    | 0xad => .ok (.lReturn, i)
    | 0xae => .ok (.fReturn, i)
    | 0xaf => .ok (.dReturn, i)
    | 0xb0 => .ok (.aReturn, i)
    | 0xb1 => .ok (.return_, i)
    | 0xb2 => do
      let (n, i) ← dU16 i
      .ok (.getStatic n, i)
    | 0xb3 => do
      let (n, i) ← dU16 i
      .ok (.putStatic n, i)
    | 0xb4 => do
      let (n, i) ← dU16 i
      .ok (.getField n, i)
    | 0xb5 => do
      let (n, i) ← dU16 i
      .ok (.putField n, i)
    | 0xb6 => do
      let (n, i) ← dU16 i
      .ok (.invokeVirtual n, i)
    | 0xb7 => do
      let (n, i) ← dU16 i
      .ok (.invokeSpecial n, i)
    | 0xb8 => do
      let (n, i) ← dU16 i
      .ok (.invokeStatic n, i)
    | 0xb9 => do
      let (n, i) ← dU16 i
      let (_, i) ← dU16 i
      .ok (.invokeInterface n, i)
    | 0xba => do
      let (n, i) ← dU16 i
      let (_, i) ← dU16 i
      .ok (.invokeDynamic n, i)
    | 0xbb => do
      let (n, i) ← dU16 i
      .ok (.new n, i)
    | 0xbc => do
      let (t, i) ← dU8 i
      match t with
      | 4 => .ok (.newArray .boolean, i)
      | 5 => .ok (.newArray .char, i)
      | 6 => .ok (.newArray .float, i)
      | 7 => .ok (.newArray .double, i)
      | 8 => .ok (.newArray .byte, i)
      | 9 => .ok (.newArray .short, i)
      | 10 => .ok (.newArray .int, i)
      | 11 => .ok (.newArray .long, i)
      | _ => .error (.unknownArrayType t)
    | 0xbd => do
      let (n, i) ← dU16 i
      .ok (.aNewArray n, i)
    | 0xbe => .ok (.arrayLength, i)
    | 0xbf => .ok (.aThrow, i)
    | 0xc0 => do
      let (n, i) ← dU16 i
      .ok (.checkCast n, i)
    | 0xc1 => do
      let (n, i) ← dU16 i
      .ok (.instanceOf n, i)
    | 0xc2 => .ok (.monitorEnter, i)
    | 0xc3 => .ok (.monitorExit, i)
    | 0xc4 => readInstrF fuel i true pos
    | 0xc5 => do
      let (n, i) ← dU16 i
      let (d, i) ← dU8 i
      .ok (.multiANewArray n d, i)
    | 0xc6 => do
      let (t, i) ← readBranch16 i pos
      .ok (.ifNull t, i)
    | 0xc7 => do
      let (t, i) ← readBranch16 i pos
      .ok (.ifNonNull t, i)
    | 0xc8 => do
      let (t, i) ← readBranch32 i pos
      .ok (.goto t, i)
    | 0xc9 => do
      let (t, i) ← readBranch32 i pos
      .ok (.jsr t, i)
    | _ => .error (.unknownInstruction code)

/-- Models `InstrSet` (src/class/op.rs): `(byte offset, instruction)` pairs. -/
abbrev InstrSet := List (Nat × Instr)

/-- The `loop` of `parse_code`; the fuel (`data.length + 1` at top level) can
never be exhausted since every iteration consumes at least one byte. -/
def parseCodeLoop : Nat → Reader → InstrSet → Except DecompileErr InstrSet
  | 0, _, _ => .error .panicked
  | fuel + 1, cur, acc =>
    let pos := cur.consumed
    match readInstrF (cur.rest.length + 1) cur false (Int.ofNat pos) with
    | .error e => .error e
    | .ok (instr, cur') =>
      let acc := acc ++ [(pos, instr)]
      if cur'.rest.isEmpty then .ok acc else parseCodeLoop fuel cur' acc

/-- Models `parse_code` (src/class/op.rs). -/
def parseCode (data : List Nat) : Except DecompileErr InstrSet :=
  parseCodeLoop (data.length + 1) ⟨0, data⟩ []

/-! Part: ClassPath (src/class/class.rs) and the descriptor language -/

/-- Rust `str::split` on a single-character pattern: always returns a
non-empty list, with empty pieces kept. -/
def splitChar (sep : Char) : List Char → List (List Char)
  | [] => [[]]
  | c :: t =>
    if c = sep then [] :: splitChar sep t
    else
      match splitChar sep t with
      | [] => [[c]]
      | g :: gs => (c :: g) :: gs

/-- Rust `Vec<String>::join(sep)`. -/
def joinSep (sep : List Char) : List (List Char) → List Char
  | [] => []
  | [x] => x
  | x :: xs => x ++ sep ++ joinSep sep xs

/-- Models `ClassPath` (src/class/class.rs). -/
structure ClassPath where
  name : List Char
  package : List (List Char)
  outer_classes : List (List Char)
  deriving DecidableEq, Repr

/-- Models `ClassPath::from` (src/class/class.rs): split the internal form on `/`,
take the last piece as the class, split it on `$`, take the last piece as the
simple name.  `splitChar` never returns `[]`, so the `.getD []` defaults that
stand in for `Vec::remove(len - 1)` are unreachable. -/
def ClassPath.from_ (value : List Char) : ClassPath :=
  let package := splitChar '/' value
  let «class» := package.getLast?.getD []
  let package := package.dropLast
  let outer_classes := splitChar '$' «class»
  let name := outer_classes.getLast?.getD []
  let outer_classes := outer_classes.dropLast
  { name := name, package := package, outer_classes := outer_classes }

/-- Models `ClassPath::package_str` (src/class/class.rs): `self.package.join(".")`. -/
def ClassPath.package_str (c : ClassPath) : List Char :=
  joinSep ['.'] c.package

/-- Models `ClassPath::internal_path` (src/class/class.rs), translated verbatim: it
starts from `package_str()` (the dot-joined package). -/
def ClassPath.internal_path (c : ClassPath) : List Char :=
  let out := c.package_str
  let out := if out.isEmpty then out else out ++ ['/']
  let out := if c.outer_classes.isEmpty then out else out ++ joinSep ['$'] c.outer_classes ++ ['$']
  out ++ c.name

/-- Models `MethodDescriptor`/`ArrayDescriptor` are inlined into the variant
(src/class/descriptor.rs); `Class` is `classRef` (`class` is reserved). -/
inductive Descriptor where
  | byte
  | char
  | double
  | float
  | int
  | long
  | classRef (c : ClassPath)
  | short
  | boolean
  | array (dimensions : Nat) (descriptor : Descriptor)
  | method (parameters : List Descriptor) (return_type : Descriptor)
  | void
  | unknown (v : List Char)

/-- The character class `[BCDFIJSZV]` of the `parse_all` regex. -/
def primChars : List Char := ['B', 'C', 'D', 'F', 'I', 'J', 'S', 'Z', 'V']

/-- Split a string at its last `';'`, returning (piece up to and including the
`';'`, remainder); `none` when no `';'` occurs.  This is the greedy `L.*;`
match extent used below. -/
def splitLastSemi : List Char → Option (List Char × List Char)
  | [] => none
  | c :: t =>
    match splitLastSemi t with
    | some (a, b) => some (c :: a, b)
    | none => if c = ';' then some ([';'], t) else none

/-- Models `Regex::find_iter` of `([BCDFIJSZV]|(L.*;)|(\[.*))` (leftmost-first,
greedy, non-overlapping), as used by `Descriptor::parse_all`
(src/class/descriptor.rs): a primitive tag matches one character; `L.*;`
matches through the last `';'` of the remaining input; `\[.*` swallows the
whole remaining input.  The fuel (`length + 1` from the wrapper) cannot run
out because every step consumes at least one character. -/
def findTokensF : Nat → List Char → List (List Char)
  | 0, _ => []
  | _, [] => []
  | fuel + 1, c :: t =>
    if c ∈ primChars then [c] :: findTokensF fuel t
    else if c = 'L' then
      match splitLastSemi t with
      | some (a, b) => ('L' :: a) :: findTokensF fuel b
      | none => findTokensF fuel t
    else if c = '[' then [('[' :: t)]
    else findTokensF fuel t

/-- Models `Descriptor::parse` (src/class/descriptor.rs).  The fuel bounds the
recursion into array elements, method parameters and return types, each of
which is a strictly shorter string; the wrapper supplies `length + 1`. -/
def parseDescF : Nat → List Char → Descriptor
  | 0, v => .unknown v
  | fuel + 1, value =>
    match value with
    | ['B'] => .byte
    | ['C'] => .char
    | ['D'] => .double
    | ['F'] => .float
    | ['I'] => .int
    | ['J'] => .long
    | ['V'] => .void
    | ['S'] => .short
    | ['Z'] => .boolean
    | _ =>
      if value.head? = some 'L' then
        -- `value.split_at(value.len() - 1).0.split_at(1).1`
        .classRef (ClassPath.from_ (value.dropLast.drop 1))
      else if value.head? = some '[' then
        let name := value.dropWhile (· = '[')
        let dimensions := value.length - name.length
        .array dimensions (parseDescF fuel name)
      else if value.head? = some '(' then
        match (value.reverse.findIdx? (· = ')')).map (fun j => value.length - 1 - j) with
        | some endIdx =>
          let parts0 := value.take endIdx
          let parts1 := value.drop endIdx
          let parameters :=
            if parts0.length ≠ 1 then
              (findTokensF (parts0.length + 1) (parts0.drop 1)).map (parseDescF fuel)
            else []
          let return_type := parseDescF fuel (parts1.drop 1)
          .method parameters return_type
        | none => .unknown value
      else .unknown value

/-- Models `Descriptor::parse`. -/
def Descriptor.parse (value : List Char) : Descriptor :=
  parseDescF (value.length + 1) value

mutual
/-- Models `Descriptor::to_internal_java` (src/class/descriptor.rs). -/
def Descriptor.to_internal_java : Descriptor → List Char
  | .classRef c => 'L' :: c.internal_path ++ [';']
  | .array dims d => List.replicate dims '[' ++ d.to_internal_java
  | .method ps r =>
    '(' :: Descriptor.internalParams ps ++ [')'] ++ r.to_internal_java
  | .unknown v => ('/' :: '*' :: ' ' :: 'u' :: 'n' :: 'k' :: 'n' :: 'o' :: 'w' :: 'n' ::
      ' ' :: 't' :: 'y' :: 'p' :: 'e' :: ' ' :: '*' :: '/' :: ' ' :: []) ++ v
  | .byte => ['B']
  | .char => ['C']
  | .double => ['D']
  | .float => ['F']
  | .int => ['I']
  | .long => ['J']
  | .short => ['S']
  | .boolean => ['Z']
  | .void => ['V']

/-- The `for x in &met.parameters { out.push_str(...) }` loop of
`to_internal_java`. -/
def Descriptor.internalParams : List Descriptor → List Char
  | [] => []
  | d :: t => d.to_internal_java ++ Descriptor.internalParams t
end

/-! Part: Constant pool (src/class/constant.rs) -/

/-- Models `MemberReferenceU` (src/class/constant.rs, `readable_struct!`). -/
structure MemberReferenceU where
  class_index : Nat
  name_and_type_info : Nat
  deriving DecidableEq, Repr

/-- Models `NameAndTypeIndex`. -/
structure NameAndTypeIndex where
  name_index : Nat
  descriptor_index : Nat
  deriving DecidableEq, Repr

/-- Models `MethodHandle`. -/
structure MethodHandleC where
  reference_kind : Nat
  reference_index : Nat
  deriving DecidableEq, Repr

/-- Models `DynamicConstant`. -/
structure DynamicConstant where
  bootstrap_method_attr_index : Nat
  name_and_type_index : Nat
  deriving DecidableEq, Repr

/-- Models `ConstantTag` (src/class/constant.rs). -/
inductive ConstantTag where
  | utf8 | integer | float | long | double | classTag | stringTag
  | fieldRef | methodRef | interfaceMethodRef | nameAndType
  | methodHandle | methodType | dynamic | invokeDynamic | module | package
  deriving DecidableEq, Repr

/-- Models `ConstantTag::try_from` (the `TryFromPrimitive` instance). -/
def tagOfU8 (n : Nat) : Option ConstantTag :=
  match n with
  | 1 => some .utf8
  | 3 => some .integer
  | 4 => some .float
  | 5 => some .long
  | 6 => some .double
  | 7 => some .classTag
  | 8 => some .stringTag
  | 9 => some .fieldRef
  | 10 => some .methodRef
  | 11 => some .interfaceMethodRef
  | 12 => some .nameAndType
  | 15 => some .methodHandle
  | 16 => some .methodType
  | 17 => some .dynamic
  | 18 => some .invokeDynamic
  | 19 => some .module
  | 20 => some .package
  | _ => none

/-- Models `Constant` (src/class/constant.rs).  `Utf8` carries the decoded character
list; `Float`/`Double` carry raw IEEE bit patterns. -/
inductive Constant where
  | utf8 (v : List Char)
  | integer (v : Int)
  | float (bits : Nat)
  | long (v : Int)
  | double (bits : Nat)
  | classC (utf8_index : Nat)
  | stringC (utf8_index : Nat)
  | fieldRef (r : MemberReferenceU)
  | methodRef (r : MemberReferenceU)
  | interfaceMethodRef (r : MemberReferenceU)
  | nameAndType (r : NameAndTypeIndex)
  | methodHandle (r : MethodHandleC)
  | methodType (i : Nat)
  | dynamic (r : DynamicConstant)
  | invokeDynamic (r : DynamicConstant)
  | module (i : Nat)
  | package (i : Nat)
  deriving DecidableEq, Repr

/-- The constant pool's `HashMap<PoolIndex, Constant>`, as an association list
with pairwise-distinct keys (the reader below only ever inserts fresh,
strictly increasing indices). -/
abbrev Pool := List (Nat × Constant)

/-- Models `HashMap::get`. -/
def poolGet (p : Pool) (i : Nat) : Option Constant :=
  (p.find? (fun e => e.1 == i)).map (·.2)

/-- Read `n` raw bytes (`u16::read_bytes` body, src/io.rs). -/
def rdBytes : Nat → Reader → Except ReadErr (List Nat × Reader)
  | 0, r => .ok ([], r)
  | n + 1, r => do
    let (b, r) ← rdU8 r
    let (bs, r) ← rdBytes n r
    .ok (b :: bs, r)

/-- Models `String::read` (src/io.rs): a `u16` length followed by that many bytes.
The source then validates the bytes as UTF-8 (`String::from_utf8`); that
validation is not modelled — every byte becomes one character — so this
reader accepts a superset of the byte streams the source accepts, which only
strengthens the universally quantified pool invariant proved below.  No claim
depends on multi-byte character decoding. -/
def rdString (r : Reader) : Except ReadErr (List Char × Reader) := do
  let (len, r) ← rdU16 r
  let (bs, r) ← rdBytes len r
  .ok (bs.map Char.ofNat, r)

/-- Models `ConstantValue::read` (src/class/constant.rs): a tag byte and the
tag-directed payload. -/
def readConstantValue (r : Reader) : Except ReadErr ((ConstantTag × Constant) × Reader) := do
  let (tagRaw, r) ← rdU8 r
  match tagOfU8 tagRaw with
  | none => .error (.unknownConstantTag tagRaw)
  | some tag =>
    match tag with
    | .utf8 => do
      let (s, r) ← rdString r
      .ok ((tag, .utf8 s), r)
    | .integer => do
      let (v, r) ← rdI32 r
      .ok ((tag, .integer v), r)
    | .float => do
      let (bits, r) ← rdU32 r
      .ok ((tag, .float bits), r)
    | .long => do
      let (v, r) ← rdI64 r
      .ok ((tag, .long v), r)
    | .double => do
      let (bits, r) ← rdU64 r
      .ok ((tag, .double bits), r)
    | .classTag => do
      let (i, r) ← rdU16 r
      .ok ((tag, .classC i), r)
    | .stringTag => do
      let (i, r) ← rdU16 r
      .ok ((tag, .stringC i), r)
    | .fieldRef => do
      let (a, r) ← rdU16 r
      let (b, r) ← rdU16 r
      .ok ((tag, .fieldRef ⟨a, b⟩), r)
    | .methodRef => do
      let (a, r) ← rdU16 r
      let (b, r) ← rdU16 r
      .ok ((tag, .methodRef ⟨a, b⟩), r)
    | .interfaceMethodRef => do
      let (a, r) ← rdU16 r
      let (b, r) ← rdU16 r
      .ok ((tag, .interfaceMethodRef ⟨a, b⟩), r)
    | .nameAndType => do
      let (a, r) ← rdU16 r
      let (b, r) ← rdU16 r
      .ok ((tag, .nameAndType ⟨a, b⟩), r)
    | .methodHandle => do
      let (k, r) ← rdU8 r
      let (i, r) ← rdU16 r
      .ok ((tag, .methodHandle ⟨k, i⟩), r)
    | .methodType => do
      let (i, r) ← rdU16 r
      .ok ((tag, .methodType i), r)
    | .dynamic => do
      let (a, r) ← rdU16 r
      let (b, r) ← rdU16 r
      .ok ((tag, .dynamic ⟨a, b⟩), r)
    | .invokeDynamic => do
      let (a, r) ← rdU16 r
      let (b, r) ← rdU16 r
      .ok ((tag, .invokeDynamic ⟨a, b⟩), r)
    | .module => do
      let (i, r) ← rdU16 r
      .ok ((tag, .module i), r)
    | .package => do
      let (i, r) ← rdU16 r
      .ok ((tag, .package i), r)

/-- The `while index < size` loop of `ConstantPool::read`; the fuel (`size`
from the wrapper) cannot run out since the index grows by at least one per
step starting from 1. -/
def readConstantsLoop : Nat → Reader → Nat → Nat → Pool → Except ReadErr (Pool × Reader)
  | 0, _, _, _, _ => .error .outOfFuel
  | fuel + 1, r, index, size, pool =>
    if index < size then
      match readConstantValue r with
      | .error e => .error e
      | .ok ((tag, value), r') =>
        let pool' := (index, value) :: pool
        -- `Long` and `Double` constants consume two indexes worth of data
        let inc : Nat := match tag with | .long | .double => 2 | _ => 1
        readConstantsLoop fuel r' (index + inc) size pool'
    else .ok (pool, r)

/-- Models `ConstantPool::read` (src/class/constant.rs). -/
def readConstantPool (r : Reader) : Except ReadErr (Pool × Reader) := do
  let (size, r) ← rdU16 r
  readConstantsLoop size r 1 size []

/-- Models `NameAndType` (the resolved view, src/class/constant.rs). -/
structure NameAndType where
  name : List Char
  descriptor : Descriptor

/-- Models `MemberReference` (the resolved view). -/
structure MemberReference where
  «class» : ClassPath
  name_and_type : NameAndType

/-- Models `ConstantPool::get_utf8`. -/
def get_utf8 (p : Pool) (i : Nat) : Except ConstantErr (List Char) :=
  match poolGet p i with
  | some (.utf8 v) => .ok v
  | some _ => .error (.expectedUtf8 i)
  | none => .error (.notFound i)

/-- Models `ConstantPool::get_class_path_required`. -/
def get_class_path_required (p : Pool) (i : Nat) : Except ConstantErr ClassPath :=
  match poolGet p i with
  | some (.classC v) =>
    match get_utf8 p v with
    | .ok s => .ok (ClassPath.from_ s)
    | .error _ => .error (.invalidClassReference i)
  | some _ => .error (.invalidClassReference i)
  | none => .error (.invalidClassReference i)

/-- Models `ConstantPool::get_name_and_type`. -/
def get_name_and_type (p : Pool) (i : Nat) : Except ConstantErr NameAndType :=
  match poolGet p i with
  | some (.nameAndType v) => do
    let name ← get_utf8 p v.name_index
    let descStr ← get_utf8 p v.descriptor_index
    .ok ⟨name, Descriptor.parse descStr⟩
  | some _ => .error (.expectedMethodRef i)
  | none => .error (.notFound i)

/-- Models `ConstantPool::get_member_ref`. -/
def get_member_ref (p : Pool) (i : Nat) : Except ConstantErr MemberReference :=
  match poolGet p i with
  | some (.methodRef v) | some (.fieldRef v) | some (.interfaceMethodRef v) => do
    let c ← get_class_path_required p v.class_index
    let nat ← get_name_and_type p v.name_and_type_info
    .ok ⟨c, nat⟩
  | some _ => .error (.expectedMethodRef i)
  | none => .error (.notFound i)

/-! Part: The lifter AST and symbolic stack (src/decomp/ast.rs) -/

/-- Models `VarType` (src/decomp/ast.rs). -/
inductive VarType where
  | byte | int | float | double | long | short | boolean | char | reference
  deriving DecidableEq, Repr

/-- Models `ComparisonMode` (src/decomp/ast.rs). -/
inductive ComparisonMode where
  | greater | less
  deriving DecidableEq, Repr

/-- Models `AST` (src/decomp/ast.rs).  Boxes are dropped; `Vec<AST>` is `List AST`.
Constant payloads follow the `Instr` conventions (floats as raw bits). -/
inductive AST where
  | variable (index : Nat) (t : VarType)
  | set (index : Nat) (value : AST)
  | fieldSet (member : MemberReference) (reference value : AST)
  | fieldGet (member : MemberReference) (reference : AST)
  | mul (left right : AST)
  | div (left right : AST)
  | sub (left right : AST)
  | add (left right : AST)
  | new (c : ClassPath)
  | staticSet (member : MemberReference) (value : AST)
  | staticGet (member : MemberReference)
  | methodCall (member : MemberReference) (reference : AST) (args : List AST)
  | staticCall (member : MemberReference) (args : List AST)
  | instanceOf (reference : AST) (c : ClassPath)
  | comparison (mode : ComparisonMode) (left right : AST)
  | signedComparison (left right : AST)
  | primitiveCast (value : AST) (primitive : VarType)
  | classCast (value : AST) (c : ClassPath)
  | newArrayMulti (array_type : ClassPath) (dimensions : Nat)
  | primitiveArray (array_type : ArrayType) (count : AST)
  | arrayLength (reference : AST)
  | arrayLoad (reference index : AST)
  | arrayStore (reference index value : AST)
  | switchLookup (key : AST) (default : Nat) (pairs : List (Int × Nat))
  | switchTable (key : AST) (default low high : Nat) (offsets : List Nat)
  | stringConst (v : List Char)
  | integerConstant (v : Int)
  | floatConstant (bits : Nat)
  | longConstant (v : Int)
  | doubleConstant (bits : Nat)
  | short (v : Int)
  | int (v : Int)
  | null
  | voidReturn
  | returnE (value : AST)
  | negate (value : AST)
  | xor (left right : AST)
  | bitwiseAnd (left right : AST)
  | bitwiseOr (left right : AST)
  | bitwiseShl (left right : AST)
  | bitwiseShr (left right : AST)
  | logicalShr (left right : AST)
  | remainder (left right : AST)
  | increment (index : Nat) (value : Int)
  | ifEqual (left right : AST) (branch : Nat)
  | ifNotEqual (left right : AST) (branch : Nat)
  | ifGreaterThanOrEqual (left right : AST) (branch : Nat)
  | ifGreaterThan (left right : AST) (branch : Nat)
  | ifLessThan (left right : AST) (branch : Nat)
  | ifLessThanOrEqual (left right : AST) (branch : Nat)
  | ifEq (value : AST) (branch : Nat)
  | ifGe (value : AST) (branch : Nat)
  | ifGt (value : AST) (branch : Nat)
  | ifLe (value : AST) (branch : Nat)
  | ifLt (value : AST) (branch : Nat)
  | ifNe (value : AST) (branch : Nat)
  | ifNonnull (value : AST) (branch : Nat)
  | ifNull (value : AST) (branch : Nat)
  | jsr (branch : Nat)

/-- Models `Stack::pop` (src/decomp/ast.rs): the top of the symbolic stack is the
last element of the `Vec`. -/
def stackPop (s : List AST) : Except StackErr (AST × List AST) :=
  match s.getLast? with
  | none => .error .empty
  | some v => .ok (v, s.dropLast)

/-- Models `Stack::swap` (src/decomp/ast.rs): `values.swap(len - 1, len - 2)`. -/
def stackSwap (s : List AST) : Except StackErr (List AST) :=
  if 2 ≤ s.length then
    match s.reverse with
    | a :: b :: t => .ok ((b :: a :: t).reverse)
    | _ => .error (.notEnough 2 s.length)
  else .error (.notEnough 2 s.length)

/-- A stack operation inside the lifter (the `?` conversion `StackError →
`DecompileError`). -/
def popD (s : List AST) : Except DecompileErr (AST × List AST) :=
  (stackPop s).mapError .stackError

/-- Models `Stack::pop2` (src/decomp/ast.rs): drop the top expression; unless it is a
long/double literal, drop a second one. -/
def stackPop2 (s : List AST) : Except DecompileErr (List AST) := do
  let (top, s) ← popD s
  match top with
  | .doubleConstant _ | .longConstant _ => .ok s
  | _ => do
    let (_, s) ← popD s
    .ok s

/-- Models `Stack::prim_cast` (src/decomp/ast.rs). -/
def stackPrimCast (s : List AST) (primitive : VarType) : Except DecompileErr (List AST) := do
  let (v, s) ← popD s
  .ok (s ++ [AST.primitiveCast v primitive])

/-- The argument-popping loop of the invoke arms: `for _ in
0..method.parameters.len() { args.push(stack.pop()?) }` — arguments are
collected in pop order (the source reverses them afterwards). -/
def popArgs : Nat → List AST → Except DecompileErr (List AST × List AST)
  | 0, s => .ok ([], s)
  | n + 1, s => do
    let (v, s) ← popD s
    let (vs, s) ← popArgs n s
    .ok (v :: vs, s)

/-- Rust `usize` subtraction under debug semantics: an underflow is a panic.
(The release build wraps instead; at every use below — the `DUP*` index
arithmetic — the wrapped value is a wildly out-of-range `Vec` index, so both
builds panic.) -/
def checkedSub (a b : Nat) : Except DecompileErr Nat :=
  if b ≤ a then .ok (a - b) else .error .panicked

/-- Models `Vec::insert(index, value)`: panics when `index > len`. -/
def vecInsert (s : List AST) (index : Nat) (v : AST) : Except DecompileErr (List AST) :=
  if index ≤ s.length then .ok (s.take index ++ v :: s.drop index) else .error .panicked

/-- Models `Vec::get(i)` over the symbolic stack. -/
def vecGet (s : List AST) (i : Nat) : Option AST :=
  s.get? i

/-- Models `Block` (src/decomp/ast.rs): an instruction slice plus successor offsets. -/
structure Block where
  instructions : InstrSet
  branches : List Nat

/-- One iteration of the `for (_, code) in &self.instructions` loop of
`Block::decompile` (src/decomp/ast.rs), mapping the current `(statements,
stack)` pair to the next.  Every arm is translated from the corresponding
`match code` arm, in source order; the final wildcard arm leaves the state
unchanged. -/
def decompileStep (pool : Pool) (code : Instr) (statements stack : List AST) :
    Except DecompileErr (List AST × List AST) :=
  match code with
  | .swap => do
    let stack ← (stackSwap stack).mapError .stackError
    .ok (statements, stack)
  | .iLoad index => .ok (statements, stack ++ [.variable index .int])
  | .lLoad index => .ok (statements, stack ++ [.variable index .long])
  | .fLoad index => .ok (statements, stack ++ [.variable index .float])
  | .dLoad index => .ok (statements, stack ++ [.variable index .double])
  | .aLoad index => .ok (statements, stack ++ [.variable index .reference])
  | .invokeSpecial index | .invokeInterface index | .invokeVirtual index => do
    let member ← (get_member_ref pool index).mapError .invalidConstant
    match member.name_and_type.descriptor with
    | .method parameters return_type => do
      let (args, stack) ← popArgs parameters.length stack
      let args := args.reverse
      let (reference, stack) ← popD stack
      match return_type with
      | .void => .ok (statements ++ [.methodCall member reference args], stack)
      | _ => .ok (statements, stack ++ [.methodCall member reference args])
    | _ => .error .expectedMethodDescriptor
  | .invokeStatic index => do
    let member ← (get_member_ref pool index).mapError .invalidConstant
    match member.name_and_type.descriptor with
    | .method parameters return_type => do
      let (args, stack) ← popArgs parameters.length stack
      let args := args.reverse
      match return_type with
      | .void => .ok (statements ++ [.staticCall member args], stack)
      | _ => .ok (statements, stack ++ [.staticCall member args])
    | _ => .error .expectedMethodDescriptor
  | .invokeDynamic index =>
    match poolGet pool index with
    | none => .error (.invalidConstant (.notFound index))
    | some (.invokeDynamic _) => .error .unimplementedOp
    | some _ => .error (.invalidConstant (.expectedInvokeDynamic index))
  | .return_ => .ok (statements ++ [.voidReturn], stack)
  | .iStore index | .lStore index | .fStore index | .dStore index | .aStore index => do
    let (v, stack) ← popD stack
    .ok (statements ++ [.set index v], stack)
  | .iaStore | .laStore | .daStore | .caStore | .baStore | .aaStore | .saStore | .faStore => do
    let (reference, stack) ← popD stack
    let (index, stack) ← popD stack
    let (value, stack) ← popD stack
    .ok (statements ++ [.arrayStore reference index value], stack)
  | .iaLoad | .saLoad | .daLoad | .laLoad | .caLoad | .baLoad | .aaLoad | .faLoad => do
    let (index, stack) ← popD stack
    let (reference, stack) ← popD stack
    .ok (statements, stack ++ [.arrayLoad reference index])
  | .putField index => do
    let member ← (get_member_ref pool index).mapError .invalidConstant
    let (value, stack) ← popD stack
    let (reference, stack) ← popD stack
    .ok (statements ++ [.fieldSet member reference value], stack)
  | .getField index => do
    let member ← (get_member_ref pool index).mapError .invalidConstant
    let (reference, stack) ← popD stack
    .ok (statements, stack ++ [.fieldGet member reference])
  | .putStatic index => do
    let member ← (get_member_ref pool index).mapError .invalidConstant
    let (value, stack) ← popD stack
    .ok (statements ++ [.staticSet member value], stack)
  | .getStatic index => do
    let member ← (get_member_ref pool index).mapError .invalidConstant
    .ok (statements, stack ++ [.staticGet member])
  | .arrayLength => do
    let (reference, stack) ← popD stack
    .ok (statements, stack ++ [.arrayLength reference])
  | .loadConst index =>
    match poolGet pool index with
    | none => .error (.invalidConstant (.notFound index))
    | some (.integer v) => .ok (statements, stack ++ [.integerConstant v])
    | some (.float bits) => .ok (statements, stack ++ [.floatConstant bits])
    | some (.long v) => .ok (statements, stack ++ [.longConstant v])
    | some (.double bits) => .ok (statements, stack ++ [.doubleConstant bits])
    | some (.stringC i) => do
      let s ← (get_utf8 pool i).mapError .invalidConstant
      .ok (statements, stack ++ [.stringConst s])
    | some _ => .error .unimplementedOp
  | .checkCast index => do
    let c ← (get_class_path_required pool index).mapError .invalidConstant
    let (value, stack) ← popD stack
    .ok (statements, stack ++ [.classCast value c])
  | .iconst v => .ok (statements, stack ++ [.integerConstant v])
  | .dconst bits => .ok (statements, stack ++ [.doubleConstant bits])
  | .fconst bits => .ok (statements, stack ++ [.floatConstant bits])
  | .lconst v => .ok (statements, stack ++ [.longConstant v])
  | .imul | .fmul | .dmul | .lmul => do
    let (left, stack) ← popD stack
    let (right, stack) ← popD stack
    .ok (statements, stack ++ [.mul left right])
  | .idiv | .fdiv | .ddiv | .ldiv => do
    let (left, stack) ← popD stack
    let (right, stack) ← popD stack
    .ok (statements, stack ++ [.div left right])
  | .iadd | .fadd | .dadd | .ladd => do
    let (left, stack) ← popD stack
    let (right, stack) ← popD stack
    .ok (statements, stack ++ [.add left right])
  | .isub | .fsub | .dsub | .lsub => do
    let (left, stack) ← popD stack
    let (right, stack) ← popD stack
    .ok (statements, stack ++ [.sub left right])
  | .irem | .frem | .drem | .lrem => do
    -- the source pushes `AST::Sub` here as well
    let (left, stack) ← popD stack
    let (right, stack) ← popD stack
    .ok (statements, stack ++ [.sub left right])
  | .f2l | .d2l | .i2l => do
    let stack ← stackPrimCast stack .long
    .ok (statements, stack)
  | .f2d | .i2d | .l2d => do
    let stack ← stackPrimCast stack .double
    .ok (statements, stack)
  | .f2i | .d2i | .l2i => do
    let stack ← stackPrimCast stack .int
    .ok (statements, stack)
  | .i2f | .d2f | .l2f => do
    let stack ← stackPrimCast stack .float
    .ok (statements, stack)
  | .i2b => do
    -- the source maps `I2B` to a `Float` cast
    let stack ← stackPrimCast stack .float
    .ok (statements, stack)
  | .i2s => do
    let stack ← stackPrimCast stack .short
    .ok (statements, stack)
  | .i2c => do
    let stack ← stackPrimCast stack .char
    .ok (statements, stack)
  | .aconstNull => .ok (statements, stack ++ [.null])
  | .biPush v => .ok (statements, stack ++ [.int v])
  | .siPush v => .ok (statements, stack ++ [.short v])
  | .pop => do
    let (_, stack) ← popD stack
    .ok (statements, stack)
  | .pop2 => do
    let stack ← stackPop2 stack
    .ok (statements, stack)
  | .aReturn | .iReturn | .fReturn | .dReturn | .lReturn => do
    let (value, stack) ← popD stack
    .ok (statements ++ [.returnE value], stack)
  | .monitorEnter | .monitorExit => do
    let (_, stack) ← popD stack
    .ok (statements, stack)
  | .nop => .ok (statements, stack)
  | .new index => do
    let c ← (get_class_path_required pool index).mapError .invalidConstant
    .ok (statements, stack ++ [.new c])
  | .fcmpL | .dcmpL => do
    let (left, stack) ← popD stack
    let (right, stack) ← popD stack
    .ok (statements, stack ++ [.comparison .less left right])
  | .fcmpG | .dcmpG => do
    let (left, stack) ← popD stack
    let (right, stack) ← popD stack
    .ok (statements, stack ++ [.comparison .greater left right])
  | .lcmp => do
    let (left, stack) ← popD stack
    let (right, stack) ← popD stack
    .ok (statements, stack ++ [.signedComparison left right])
  | .iand | .land => do
    let (left, stack) ← popD stack
    let (right, stack) ← popD stack
    .ok (statements, stack ++ [.bitwiseAnd left right])
  | .ior | .lor => do
    let (left, stack) ← popD stack
    let (right, stack) ← popD stack
    .ok (statements, stack ++ [.bitwiseOr left right])
  | .ixor | .lxor => do
    let (left, stack) ← popD stack
    let (right, stack) ← popD stack
    .ok (statements, stack ++ [.xor left right])
  | .ishL | .lshL => do
    let (left, stack) ← popD stack
    let (right, stack) ← popD stack
    .ok (statements, stack ++ [.bitwiseShl left right])
  | .ishR | .lshR => do
    let (left, stack) ← popD stack
    let (right, stack) ← popD stack
    .ok (statements, stack ++ [.bitwiseShr left right])
  | .iushR | .lushR => do
    let (left, stack) ← popD stack
    let (right, stack) ← popD stack
    .ok (statements, stack ++ [.logicalShr left right])
  | .ineg | .fneg | .dneg | .lneg => do
    let (value, stack) ← popD stack
    .ok (statements, stack ++ [.negate value])
  | .iinc index value => .ok (statements ++ [.increment index value], stack)
  | .newArray array_type => do
    let (count, stack) ← popD stack
    .ok (statements, stack ++ [.primitiveArray array_type count])
  | .multiANewArray index dimensions => do
    let (_, stack) ← popArgs dimensions stack
    let c ← (get_class_path_required pool index).mapError .invalidConstant
    .ok (statements, stack ++ [.newArrayMulti c dimensions])
  | .dup =>
    match stack.getLast? with
    | none => .error (.stackError (.notEnough 1 0))
    | some last => .ok (statements, stack ++ [last])
  | .dupX1 =>
    match stack.getLast? with
    | none => .error (.stackError (.notEnough 1 0))
    | some last => do
      let idx ← checkedSub stack.length 2
      let stack ← vecInsert stack idx last
      .ok (statements, stack)
  | .dupX2 =>
    match stack.getLast? with
    | none => .error (.stackError (.notEnough 1 0))
    | some last => do
      let idx ← checkedSub stack.length 3
      let stack ← vecInsert stack idx last
      .ok (statements, stack)
  | .dup2 => do
    let length := stack.length
    let i1 ← checkedSub length 1
    let last ← match vecGet stack i1 with
      | none => .error (DecompileErr.stackError (.notEnough 1 0))
      | some v => .ok v
    let i2 ← checkedSub length 2
    let second_last ← match vecGet stack i2 with
      | none => .error (DecompileErr.stackError (.notEnough 1 0))
      | some v => .ok v
    .ok (statements, stack ++ [second_last, last])
  | .dup2X1 => do
    let length := stack.length
    let i1 ← checkedSub length 1
    let last ← match vecGet stack i1 with
      | none => .error (DecompileErr.stackError (.notEnough 1 0))
      | some v => .ok v
    let i2 ← checkedSub length 2
    let second_last ← match vecGet stack i2 with
      | none => .error (DecompileErr.stackError (.notEnough 1 0))
      | some v => .ok v
    let j1 ← checkedSub stack.length 2
    let stack ← vecInsert stack j1 second_last
    let j2 ← checkedSub stack.length 3
    let stack ← vecInsert stack j2 last
    .ok (statements, stack)
  | .dup2X2 => do
    let length := stack.length
    let i1 ← checkedSub length 1
    let last ← match vecGet stack i1 with
      | none => .error (DecompileErr.stackError (.notEnough 1 0))
      | some v => .ok v
    let i2 ← checkedSub length 2
    let second_last ← match vecGet stack i2 with
      | none => .error (DecompileErr.stackError (.notEnough 1 0))
      | some v => .ok v
    let j1 ← checkedSub stack.length 3
    let stack ← vecInsert stack j1 second_last
    let j2 ← checkedSub stack.length 4
    let stack ← vecInsert stack j2 last
    .ok (statements, stack)
  | .instanceOf index => do
    let c ← (get_class_path_required pool index).mapError .invalidConstant
    let (reference, stack) ← popD stack
    .ok (statements, stack ++ [.instanceOf reference c])
  | .lookupSwitch default pairs => do
    let (key, stack) ← popD stack
    .ok (statements ++ [.switchLookup key default pairs], stack)
  | .tableSwitch default low high offsets => do
    let (key, stack) ← popD stack
    .ok (statements ++ [.switchTable key default low high offsets], stack)
  | .ifICmpEq index | .ifACmpEq index => do
    let (left, stack) ← popD stack
    let (right, stack) ← popD stack
    .ok (statements ++ [.ifEqual left right index], stack)
  | .ifICmpNe index | .ifACmpNe index => do
    let (left, stack) ← popD stack
    let (right, stack) ← popD stack
    .ok (statements ++ [.ifNotEqual left right index], stack)
  | .ifICmpGt index => do
    let (left, stack) ← popD stack
    let (right, stack) ← popD stack
    .ok (statements ++ [.ifGreaterThan left right index], stack)
  | .ifICmpGe index => do
    let (left, stack) ← popD stack
    let (right, stack) ← popD stack
    .ok (statements ++ [.ifGreaterThanOrEqual left right index], stack)
  | .ifICmpLt index => do
    let (left, stack) ← popD stack
    let (right, stack) ← popD stack
    .ok (statements ++ [.ifLessThan left right index], stack)
  | .ifICmpLe index => do
    let (left, stack) ← popD stack
    let (right, stack) ← popD stack
    .ok (statements ++ [.ifLessThanOrEqual left right index], stack)
  | .ifEq index => do
    let (value, stack) ← popD stack
    .ok (statements ++ [.ifEq value index], stack)
  | .ifGe index => do
    let (value, stack) ← popD stack
    .ok (statements ++ [.ifGe value index], stack)
  | .ifGt index => do
    let (value, stack) ← popD stack
    .ok (statements ++ [.ifGt value index], stack)
  | .ifLe index => do
    let (value, stack) ← popD stack
    .ok (statements ++ [.ifLe value index], stack)
  | .ifLt index => do
    let (value, stack) ← popD stack
    .ok (statements ++ [.ifLt value index], stack)
  | .ifNonNull index => do
    let (value, stack) ← popD stack
    .ok (statements ++ [.ifNonnull value index], stack)
  | .ifNull index => do
    let (value, stack) ← popD stack
    .ok (statements ++ [.ifNull value index], stack)
  | .jsr index => .ok (statements, stack ++ [.jsr index])
  | _ => .ok (statements, stack)

/-- The instruction loop of `Block::decompile`. -/
def decompileLoop (pool : Pool) : InstrSet → List AST → List AST →
    Except DecompileErr (List AST × List AST)
  | [], statements, stack => .ok (statements, stack)
  | (_, code) :: rest, statements, stack =>
    match decompileStep pool code statements stack with
    | .error e => .error e
    | .ok (statements, stack) => decompileLoop pool rest statements stack

/-- Models `Block::decompile` (src/decomp/ast.rs): run the loop from empty
statements and an empty symbolic stack, then `stack.empty()?` — failing with
`StackError::Remaining(len)` when expressions are left over. -/
def Block.decompile (b : Block) (pool : Pool) : Except DecompileErr (List AST) :=
  match decompileLoop pool b.instructions [] [] with
  | .error e => .error e
  | .ok (statements, stack) =>
    if stack.isEmpty then .ok statements
    else .error (.stackError (.remaining stack.length))

/-! Part: Control-flow-graph construction (src/decomp/ast.rs,
`gen_control_flow_graph`; src/decomp/ops.rs carries a line-for-line copy).
Panics — `unwrap()` of `None`, out-of-range `Vec::remove`/`split_at` — are
modelled by `none`. -/

/-- Models `get_index_for_pos` (src/decomp/ast.rs): index of the instruction whose
byte offset equals `pos`. -/
def get_index_for_pos (instructions : InstrSet) (pos : Nat) : Option Nat :=
  instructions.findIdx? (fun e => e.1 == pos)

/-- Models `Vec::sort` on `Vec<usize>` (ascending, by insertion). -/
def insertSorted (x : Nat) : List Nat → List Nat
  | [] => [x]
  | y :: t => if x ≤ y then x :: y :: t else y :: insertSorted x t

def sortNat (l : List Nat) : List Nat :=
  l.foldr insertSorted []

/-- Models `Vec::dedup`: collapse adjacent duplicates. -/
def dedupAdj : List Nat → List Nat
  | [] => []
  | [x] => [x]
  | x :: y :: t => if x = y then dedupAdj (y :: t) else x :: dedupAdj (y :: t)

/-- Models `Vec::remove(p)`: delete (and discard) the element at position `p`;
panics (`none`) when `p` is out of range. -/
def removeAt (l : List Nat) (p : Nat) : Option (List Nat) :=
  if p < l.length then some (l.take p ++ l.drop (p + 1)) else none

/-- The `for i in 0..split_indices.len()` loop of `split_at_multiple`
(src/decomp/ast.rs): `prev` is `split_indices[i - 1]` (0 on the first pass);
each pass `split_at`s the remaining vector (panicking when the index exceeds
its length), pushes the first half, and pushes the second half as well on the
final pass. -/
def samLoop : List Nat → Nat → List α → Option (List (List α))
  | [], _, _ => some []
  | s :: restIdx, prev, split_vector =>
    let index := s - prev
    if index ≤ split_vector.length then
      let first := split_vector.take index
      let second := split_vector.drop index
      match restIdx with
      | [] => some [first, second]
      | _ => (samLoop restIdx s second).map (first :: ·)
    else none

/-- Models `split_at_multiple` (src/decomp/ast.rs), including its quirks: a leading
index 0 is removed; when the largest index equals `vec.len()`, the element at
*position* `vec.len() - 1` is removed (a panic when the index list is shorter);
`last().unwrap()` panics when the removals left the list empty. -/
def split_at_multiple (vec : List α) (split_indices : List Nat) : Option (List (List α)) :=
  let si := dedupAdj (sortNat split_indices)
  match si with
  | [] => some [vec]
  | _ =>
    let si := if si.head? = some 0 then si.drop 1 else si
    match si.getLast? with
    | none => none
    | some lastIdx =>
      let step : Option (List Nat) :=
        if lastIdx = vec.length then removeAt si (vec.length - 1) else some si
      match step with
      | none => none
      | some si => samLoop si 0 vec

/-- The jump-index collection loop of `gen_control_flow_graph`: for the twelve
handled conditional branches, record the target's instruction index (an
`unwrap`, hence `none` on a dangling target) and the fall-through index
`i + 1`; for `Goto`, only the target's index. -/
def collectJumpIndices (instructions : InstrSet) : List (Nat × Instr) → Nat → Option (List Nat)
  | [], _ => some []
  | (_, instr) :: rest, i =>
    match instr with
    | .ifNe branch | .ifEq branch | .ifLe branch | .ifGe branch | .ifGt branch | .ifLt branch
    | .ifICmpEq branch | .ifICmpNe branch | .ifICmpGt branch | .ifICmpGe branch
    | .ifICmpLt branch | .ifICmpLe branch =>
      match get_index_for_pos instructions branch with
      | none => none
      | some true_pos =>
        (collectJumpIndices instructions rest (i + 1)).map
          (fun js => true_pos :: (i + 1) :: js)
    | .goto branch =>
      match get_index_for_pos instructions branch with
      | none => none
      | some jump_pos =>
        (collectJumpIndices instructions rest (i + 1)).map (jump_pos :: ·)
    | _ => collectJumpIndices instructions rest (i + 1)

/-- The successor computation of `gen_control_flow_graph` for one block:
dispatch on the final instruction; `next` is the first instruction strictly
after it.  The `unwrap`s of the source are `none`. -/
def blockBranches (instructions : InstrSet) (blk : InstrSet) : Option (List Nat) :=
  match blk.getLast? with
  | none => none
  | some (last_pos, last_instr) =>
    let next := (instructions.dropWhile (fun el => el.1 ≤ last_pos)).head?
    match last_instr with
    | .ifNe branch | .ifEq branch | .ifLe branch | .ifGe branch | .ifGt branch | .ifLt branch
    | .ifICmpEq branch | .ifICmpNe branch | .ifICmpGt branch | .ifICmpGe branch
    | .ifICmpLt branch | .ifICmpLe branch =>
      match next with
      | none => none
      | some n => some [branch, n.1]
    | .goto branch => some [branch]
    | .return_ | .aReturn | .iReturn | .lReturn | .dReturn | .fReturn => some []
    | _ =>
      match next with
      | none => none
      | some n => some [n.1]

/-- Models `gen_control_flow_graph` (src/decomp/ast.rs).  The `HashMap` is modelled
as an association list in raw-block order; the successor pass updates each
entry independently of iteration order, so per-key contents are faithful. -/
def gen_control_flow_graph (instructions : InstrSet) : Option (List (Nat × Block)) := do
  let jump_indices ← collectJumpIndices instructions instructions 0
  let raw_blocks ← split_at_multiple instructions jump_indices
  let keyed ← raw_blocks.mapM (fun el =>
    match el.head? with
    | none => none
    | some e => some (e.1, el))
  keyed.mapM (fun ke => do
    let br ← blockBranches instructions ke.2
    pure (ke.1, Block.mk ke.2 br))

/-! Part: Claim-level supporting definitions -/

/-- Category-2 constants: the `Long` and `Double` variants. -/
def isCat2 : Constant → Bool
  | .long _ => true
  | .double _ => true
  | _ => false

/-- The invariant maintained by `readConstantsLoop`: every stored index is
below the next free index, and a category-2 constant at `k` has `k + 1` both
below the next free index and unused by every entry. -/
def cat2Gap (pool : Pool) (index : Nat) : Prop :=
  ∀ e ∈ pool, e.1 < index ∧
    (isCat2 e.2 = true → e.1 + 1 < index ∧ ∀ e' ∈ pool, e'.1 ≠ e.1 + 1)

/-- Scenario S2: `ILOAD_0, ILOAD_1, IADD, IRETURN`. -/
def s2Instrs : InstrSet := [(0, .iLoad 0), (1, .iLoad 1), (2, .iadd), (3, .iReturn)]

/-- Scenario S3/S4 code bytes: `1A 9B 00 05 04 AC 05 AC`. -/
def s3Bytes : List Nat := [0x1a, 0x9b, 0x00, 0x05, 0x04, 0xac, 0x05, 0xac]

/-- What the decoder produces for `s3Bytes`. -/
def s3Instrs : InstrSet :=
  [(0, .iLoad 0), (1, .ifLt 6), (4, .iconst 1), (5, .iReturn), (6, .iconst 2), (7, .iReturn)]

/-- Scenario S6 wire bytes: pool size 5, then `Integer(1)`, `Long(2)`,
`Integer(3)`. -/
def c7Bytes : List Nat :=
  [0x00, 0x05,
   0x03, 0, 0, 0, 1,
   0x05, 0, 0, 0, 0, 0, 0, 0, 2,
   0x03, 0, 0, 0, 3]

/-- The pool the reader builds from `c7Bytes`. -/
def c7Pool : Pool := [(4, .integer 3), (2, .long 2), (1, .integer 1)]

/-- The descriptor string `(IJ)Ljava/lang/String;`. -/
def c9DescStr : List Char :=
  ['(', 'I', 'J', ')', 'L', 'j', 'a', 'v', 'a', '/', 'l', 'a', 'n', 'g', '/',
   'S', 't', 'r', 'i', 'n', 'g', ';']

/-- What `to_internal_java` actually returns for the parse of `c9DescStr`:
the package comes back dot-joined. -/
def c9Rendered : List Char :=
  ['(', 'I', 'J', ')', 'L', 'j', 'a', 'v', 'a', '.', 'l', 'a', 'n', 'g', '/',
   'S', 't', 'r', 'i', 'n', 'g', ';']

/-! Part: Helper lemmas -/

theorem exceptBindOk {ε α β : Type} (x : Except ε α) (f : α → Except ε β) (y : β) :
    x >>= f = Except.ok y ↔ ∃ a, x = .ok a ∧ f a = .ok y := by
  cases x <;> simp [Bind.bind, Except.bind]

theorem readConstantValue_tag (r : Reader) (tag : ConstantTag) (v : Constant) (r' : Reader)
    (h : readConstantValue r = .ok ((tag, v), r')) :
    ((tag = .long ∨ tag = .double) ↔ isCat2 v = true) := by
  unfold readConstantValue at h
  rw [exceptBindOk] at h
  obtain ⟨a, -, h⟩ := h
  obtain ⟨b, r1⟩ := a
  dsimp only at h
  rcases ht : tagOfU8 b with _ | t
  · rw [ht] at h
    exact absurd h (by simp)
  · rw [ht] at h
    dsimp only at h
    cases t <;>
      (obtain ⟨⟨x, rx⟩, -, h⟩ := (exceptBindOk _ _ _).mp h) <;>
      dsimp only at h <;>
      (try obtain ⟨⟨y, ry⟩, -, h⟩ := (exceptBindOk _ _ _).mp h) <;>
      (try dsimp only at h) <;>
      simp only [Except.ok.injEq, Prod.mk.injEq] at h <;>
      obtain ⟨⟨rfl, rfl⟩, -⟩ := h <;>
      simp [isCat2]

theorem poolGet_none_of_all_ne (pool : Pool) (j : Nat)
    (h : ∀ e ∈ pool, e.1 ≠ j) : poolGet pool j = none := by
  unfold poolGet
  rw [List.find?_eq_none.mpr]
  · rfl
  · intro e he
    simpa using h e he

theorem readConstantsLoop_gap (fuel : Nat) :
    ∀ (r : Reader) (index size : Nat) (pool pool' : Pool) (r' : Reader),
      readConstantsLoop fuel r index size pool = .ok (pool', r') →
      cat2Gap pool index → ∃ ix, cat2Gap pool' ix := by
  induction fuel with
  | zero =>
    intro r index size pool pool' r' h _
    exact absurd h (by simp [readConstantsLoop])
  | succ fuel ih =>
    intro r index size pool pool' r' h hInv
    unfold readConstantsLoop at h
    split at h
    · -- index < size: one constant is read and inserted at `index`
      split at h
      · exact absurd h (by simp)
      · rename_i tag value r2 heq
        refine ih r2 _ size _ pool' r' h ?_
        have htv := readConstantValue_tag r tag value r2 heq
        intro e he
        rcases List.mem_cons.mp he with he | he
        · subst he
          constructor
          · rcases tag <;> simp
          · intro hc2
            have : tag = .long ∨ tag = .double := htv.mpr hc2
            rcases this with rfl | rfl
            · refine ⟨by simp, ?_⟩
              intro e' he'
              rcases List.mem_cons.mp he' with he' | he'
              · subst he'
                simp
              · have := (hInv e' he').1
                omega
            · refine ⟨by simp, ?_⟩
              intro e' he'
              rcases List.mem_cons.mp he' with he' | he'
              · subst he'
                simp
              · have := (hInv e' he').1
                omega
        · obtain ⟨h1, h2⟩ := hInv e he
          constructor
          · have : (1 : Nat) ≤ (match tag with | .long | .double => 2 | _ => 1) := by
              rcases tag <;> simp
            omega
          · intro hc2
            obtain ⟨h3, h4⟩ := h2 hc2
            refine ⟨by omega, ?_⟩
            intro e' he'
            rcases List.mem_cons.mp he' with he' | he'
            · subst he'
              simp only
              omega
            · exact h4 e' he'
    · -- index ≥ size: the loop returns the accumulated pool unchanged
      simp only [Except.ok.injEq, Prod.mk.injEq] at h
      obtain ⟨rfl, -⟩ := h
      exact ⟨index, hInv⟩

theorem readConstantPool_gap (r : Reader) (pool : Pool) (r' : Reader)
    (h : readConstantPool r = .ok (pool, r'))
    (k : Nat) (c : Constant) (hk : poolGet pool k = some c) (hc : isCat2 c = true) :
    poolGet pool (k + 1) = none := by
  unfold readConstantPool at h
  obtain ⟨⟨size, r1⟩, -, h⟩ := (exceptBindOk _ _ _).mp h
  dsimp only at h
  obtain ⟨ix, hgap⟩ :=
    readConstantsLoop_gap size r1 1 size [] pool r' h (by intro e he; simp at he)
  unfold poolGet at hk
  obtain ⟨e, hfind⟩ : ∃ e, pool.find? (fun e => e.1 == k) = some e := by
    cases hf : pool.find? (fun e => e.1 == k) with
    | none => rw [hf] at hk; simp at hk
    | some e => exact ⟨e, rfl⟩
  have hmem := List.mem_of_find?_eq_some hfind
  have hval : e.2 = c := by
    rw [hfind] at hk
    simpa using hk
  have hgapE := (hgap e hmem).2 (by rw [hval]; exact hc)
  refine poolGet_none_of_all_ne pool (k + 1) ?_
  intro e' he'
  have hkey : e.1 = k := by
    have := List.find?_some hfind
    simpa using this
  have := hgapE.2 e' he'
  omega

/-! Part: Claim theorems -/

/-- C1: the claim says every binary arithmetic/bitwise instruction pops the
right operand first (top of stack), so lifting `1A 1B 60 AC` should give
`[Return(Add(Variable(0,Int), Variable(1,Int)))]`.  Evaluating the code at
that input: the decoder produces the S2 instruction sequence, but
`Block::decompile` binds its *first* pop — the top of stack — to the LEFT
operand, so the lift yields `[Return(Add(Variable(1,Int), Variable(0,Int)))]`
and not the claimed value. -/
theorem c1_binary_operand_order_code_evaluation :
    parseCode [0x1a, 0x1b, 0x60, 0xac] = .ok s2Instrs ∧
    Block.decompile ⟨s2Instrs, []⟩ []
      = .ok [.returnE (.add (.variable 1 .int) (.variable 0 .int))] ∧
    ¬ Block.decompile ⟨s2Instrs, []⟩ []
      = .ok [.returnE (.add (.variable 0 .int) (.variable 1 .int))] := by
  refine ⟨rfl, rfl, fun h => ?_⟩
  have h2 : (Except.ok [AST.returnE (.add (.variable 1 .int) (.variable 0 .int))] :
      Except DecompileErr (List AST))
      = .ok [.returnE (.add (.variable 0 .int) (.variable 1 .int))] := h
  simp at h2

/-- C2 counterexample: the claim asserts that decoding `1A 9B 00 05 04 AC 05
AC` yields an `IfLt` at offset 1 carrying target 5.  The decoder actually
resolves `pos + offset = 1 + 5 = 6`: the instruction at offset 1 is
`IfLt 6`, and `(1, IfLt 5)` occurs nowhere in the decoded sequence. -/
theorem c2_relative_example_counterexample :
    parseCode s3Bytes = .ok s3Instrs ∧
    s3Instrs[1]? = some (1, .ifLt 6) ∧
    ¬ (1, Instr.ifLt 5) ∈ s3Instrs := by
  refine ⟨rfl, rfl, ?_⟩
  simp [s3Instrs]

/-- C2 (amended): every decoded branch target is the absolute byte offset of
the branch instruction plus the encoded signed relative offset (truncated to
the target's machine width), never the raw relative delta: each 16-bit
branch decodes to `(pos + offset as i16) as u16`, `GOTO_W`/`JSR_W` decode to
`(pos + offset as i32) as u16`, and every `TABLESWITCH`/`LOOKUPSWITCH`
default/case target decodes to `(pos + offset as i32) as u32`; in particular
decoding `1A 9B 00 05 04 AC 05 AC` yields an `IfLt` at offset 1 carrying
target 6 (the absolute offset 1 + 5), not the raw relative delta 5. -/
theorem c2_branch_targets_absolute :
    (∀ (c b1 b2 : Nat) (rest : List Nat) (w : Bool) (pos : Int) (fuel : Nat),
      readInstrF (fuel + 1) ⟨c, 0x99 :: b1 :: b2 :: rest⟩ w pos
        = .ok (.ifEq (u16ofInt (pos + i16ofU16 (b1 * 256 + b2))), ⟨c + 3, rest⟩)) ∧
    (∀ (c b1 b2 : Nat) (rest : List Nat) (w : Bool) (pos : Int) (fuel : Nat),
      readInstrF (fuel + 1) ⟨c, 0x9a :: b1 :: b2 :: rest⟩ w pos
        = .ok (.ifNe (u16ofInt (pos + i16ofU16 (b1 * 256 + b2))), ⟨c + 3, rest⟩)) ∧
    (∀ (c b1 b2 : Nat) (rest : List Nat) (w : Bool) (pos : Int) (fuel : Nat),
      readInstrF (fuel + 1) ⟨c, 0x9b :: b1 :: b2 :: rest⟩ w pos
        = .ok (.ifLt (u16ofInt (pos + i16ofU16 (b1 * 256 + b2))), ⟨c + 3, rest⟩)) ∧
    (∀ (c b1 b2 : Nat) (rest : List Nat) (w : Bool) (pos : Int) (fuel : Nat),
      readInstrF (fuel + 1) ⟨c, 0x9c :: b1 :: b2 :: rest⟩ w pos
        = .ok (.ifGe (u16ofInt (pos + i16ofU16 (b1 * 256 + b2))), ⟨c + 3, rest⟩)) ∧
    (∀ (c b1 b2 : Nat) (rest : List Nat) (w : Bool) (pos : Int) (fuel : Nat),
      readInstrF (fuel + 1) ⟨c, 0x9d :: b1 :: b2 :: rest⟩ w pos
        = .ok (.ifGt (u16ofInt (pos + i16ofU16 (b1 * 256 + b2))), ⟨c + 3, rest⟩)) ∧
    (∀ (c b1 b2 : Nat) (rest : List Nat) (w : Bool) (pos : Int) (fuel : Nat),
      readInstrF (fuel + 1) ⟨c, 0x9e :: b1 :: b2 :: rest⟩ w pos
        = .ok (.ifLe (u16ofInt (pos + i16ofU16 (b1 * 256 + b2))), ⟨c + 3, rest⟩)) ∧
    (∀ (c b1 b2 : Nat) (rest : List Nat) (w : Bool) (pos : Int) (fuel : Nat),
      readInstrF (fuel + 1) ⟨c, 0x9f :: b1 :: b2 :: rest⟩ w pos
        = .ok (.ifICmpEq (u16ofInt (pos + i16ofU16 (b1 * 256 + b2))), ⟨c + 3, rest⟩)) ∧
    (∀ (c b1 b2 : Nat) (rest : List Nat) (w : Bool) (pos : Int) (fuel : Nat),
      readInstrF (fuel + 1) ⟨c, 0xa0 :: b1 :: b2 :: rest⟩ w pos
        = .ok (.ifICmpNe (u16ofInt (pos + i16ofU16 (b1 * 256 + b2))), ⟨c + 3, rest⟩)) ∧
    (∀ (c b1 b2 : Nat) (rest : List Nat) (w : Bool) (pos : Int) (fuel : Nat),
      readInstrF (fuel + 1) ⟨c, 0xa1 :: b1 :: b2 :: rest⟩ w pos
        = .ok (.ifICmpLt (u16ofInt (pos + i16ofU16 (b1 * 256 + b2))), ⟨c + 3, rest⟩)) ∧
    (∀ (c b1 b2 : Nat) (rest : List Nat) (w : Bool) (pos : Int) (fuel : Nat),
      readInstrF (fuel + 1) ⟨c, 0xa2 :: b1 :: b2 :: rest⟩ w pos
        = .ok (.ifICmpGe (u16ofInt (pos + i16ofU16 (b1 * 256 + b2))), ⟨c + 3, rest⟩)) ∧
    (∀ (c b1 b2 : Nat) (rest : List Nat) (w : Bool) (pos : Int) (fuel : Nat),
      readInstrF (fuel + 1) ⟨c, 0xa3 :: b1 :: b2 :: rest⟩ w pos
        = .ok (.ifICmpGt (u16ofInt (pos + i16ofU16 (b1 * 256 + b2))), ⟨c + 3, rest⟩)) ∧
    (∀ (c b1 b2 : Nat) (rest : List Nat) (w : Bool) (pos : Int) (fuel : Nat),
      readInstrF (fuel + 1) ⟨c, 0xa4 :: b1 :: b2 :: rest⟩ w pos
        = .ok (.ifICmpLe (u16ofInt (pos + i16ofU16 (b1 * 256 + b2))), ⟨c + 3, rest⟩)) ∧
    (∀ (c b1 b2 : Nat) (rest : List Nat) (w : Bool) (pos : Int) (fuel : Nat),
      readInstrF (fuel + 1) ⟨c, 0xa5 :: b1 :: b2 :: rest⟩ w pos
        = .ok (.ifACmpEq (u16ofInt (pos + i16ofU16 (b1 * 256 + b2))), ⟨c + 3, rest⟩)) ∧
    (∀ (c b1 b2 : Nat) (rest : List Nat) (w : Bool) (pos : Int) (fuel : Nat),
      readInstrF (fuel + 1) ⟨c, 0xa6 :: b1 :: b2 :: rest⟩ w pos
        = .ok (.ifACmpNe (u16ofInt (pos + i16ofU16 (b1 * 256 + b2))), ⟨c + 3, rest⟩)) ∧
    (∀ (c b1 b2 : Nat) (rest : List Nat) (w : Bool) (pos : Int) (fuel : Nat),
      readInstrF (fuel + 1) ⟨c, 0xa7 :: b1 :: b2 :: rest⟩ w pos
        = .ok (.goto (u16ofInt (pos + i16ofU16 (b1 * 256 + b2))), ⟨c + 3, rest⟩)) ∧
    (∀ (c b1 b2 : Nat) (rest : List Nat) (w : Bool) (pos : Int) (fuel : Nat),
      readInstrF (fuel + 1) ⟨c, 0xa8 :: b1 :: b2 :: rest⟩ w pos
        = .ok (.jsr (u16ofInt (pos + i16ofU16 (b1 * 256 + b2))), ⟨c + 3, rest⟩)) ∧
    (∀ (c b1 b2 : Nat) (rest : List Nat) (w : Bool) (pos : Int) (fuel : Nat),
      readInstrF (fuel + 1) ⟨c, 0xc6 :: b1 :: b2 :: rest⟩ w pos
        = .ok (.ifNull (u16ofInt (pos + i16ofU16 (b1 * 256 + b2))), ⟨c + 3, rest⟩)) ∧
    (∀ (c b1 b2 : Nat) (rest : List Nat) (w : Bool) (pos : Int) (fuel : Nat),
      readInstrF (fuel + 1) ⟨c, 0xc7 :: b1 :: b2 :: rest⟩ w pos
        = .ok (.ifNonNull (u16ofInt (pos + i16ofU16 (b1 * 256 + b2))), ⟨c + 3, rest⟩)) ∧
    (∀ (c b1 b2 b3 b4 : Nat) (rest : List Nat) (w : Bool) (pos : Int) (fuel : Nat),
      readInstrF (fuel + 1) ⟨c, 0xc8 :: b1 :: b2 :: b3 :: b4 :: rest⟩ w pos
        = .ok (.goto (u16ofInt (pos + i32ofU32 (((b1 * 256 + b2) * 256 + b3) * 256 + b4))),
               ⟨c + 5, rest⟩)) ∧
    (∀ (c b1 b2 b3 b4 : Nat) (rest : List Nat) (w : Bool) (pos : Int) (fuel : Nat),
      readInstrF (fuel + 1) ⟨c, 0xc9 :: b1 :: b2 :: b3 :: b4 :: rest⟩ w pos
        = .ok (.jsr (u16ofInt (pos + i32ofU32 (((b1 * 256 + b2) * 256 + b3) * 256 + b4))),
               ⟨c + 5, rest⟩)) ∧
    (∀ (d1 d2 d3 d4 o1 o2 o3 o4 : Nat) (rest : List Nat) (w : Bool) (pos : Int) (fuel : Nat),
      readInstrF (fuel + 1)
          ⟨3, 0xaa :: d1 :: d2 :: d3 :: d4 :: 0 :: 0 :: 0 :: 0 :: 0 :: 0 :: 0 :: 0 ::
              o1 :: o2 :: o3 :: o4 :: rest⟩ w pos
        = .ok (.tableSwitch (u32ofInt (pos + i32ofU32 (((d1 * 256 + d2) * 256 + d3) * 256 + d4)))
                 0 0
                 [u32ofInt (pos + i32ofU32 (((o1 * 256 + o2) * 256 + o3) * 256 + o4))],
               ⟨20, rest⟩)) ∧
    (∀ (d1 d2 d3 d4 k1 k2 k3 k4 t1 t2 t3 t4 : Nat) (rest : List Nat) (w : Bool) (pos : Int)
        (fuel : Nat),
      readInstrF (fuel + 1)
          ⟨3, 0xab :: d1 :: d2 :: d3 :: d4 :: 0 :: 0 :: 0 :: 1 ::
              k1 :: k2 :: k3 :: k4 :: t1 :: t2 :: t3 :: t4 :: rest⟩ w pos
        = .ok (.lookupSwitch (u32ofInt (pos + i32ofU32 (((d1 * 256 + d2) * 256 + d3) * 256 + d4)))
                 [(i32ofU32 (((k1 * 256 + k2) * 256 + k3) * 256 + k4),
                   u32ofInt (pos + i32ofU32 (((t1 * 256 + t2) * 256 + t3) * 256 + t4)))],
               ⟨20, rest⟩)) ∧
    parseCode s3Bytes = .ok s3Instrs ∧
    s3Instrs[1]? = some (1, .ifLt 6) := by
  refine ⟨?_, ?_, ?_, ?_, ?_, ?_, ?_, ?_, ?_, ?_, ?_, ?_, ?_, ?_, ?_, ?_, ?_, ?_, ?_, ?_,
    ?_, ?_, ?_, ?_⟩ <;>
    first
    | rfl
    | (intros; rfl)
    | (intros
       show readTableSwitchArm ⟨4, _⟩ _ = _
       simp only [readTableSwitchArm]
       norm_num
       rfl)
    | (intros
       show readLookupSwitchArm ⟨4, _⟩ _ = _
       simp only [readLookupSwitchArm]
       norm_num
       rfl)

/-- C3: the claim says the block-entry offsets are exactly offset 0, all
branch/switch targets, and every offset following a branch, switch, throw or
return.  Failing input: the decoded sequence of `B1 B1` (RETURN, RETURN).
Offset 1 follows a return, so the claim requires entries `{0, 1}`; the code
collects leaders only from the twelve handled conditional branches and GOTO,
so it builds a single block at offset 0 that spans both returns. -/
theorem c3_leader_set_code_evaluation :
    parseCode [0xb1, 0xb1] = .ok [(0, .return_), (1, .return_)] ∧
    gen_control_flow_graph [(0, .return_), (1, .return_)]
      = some [(0, ⟨[(0, .return_), (1, .return_)], []⟩)] ∧
    (gen_control_flow_graph [(0, .return_), (1, .return_)]).map (fun l => l.map Prod.fst)
      = some [0] ∧
    ¬ (gen_control_flow_graph [(0, .return_), (1, .return_)]).map (fun l => l.map Prod.fst)
      = some [0, 1] :=
  ⟨rfl, rfl, rfl, by decide⟩

/-- C4: the claim says a block ending in ATHROW gets the empty successor
list.  Failing input: the decoded sequence of `99 00 04 BF B1` (IFEQ +4,
ATHROW, RETURN), whose middle block consists of the lone ATHROW at offset 3:
the code's catch-all successor rule gives it the fall-through successor
`[4]`, not `[]`. -/
theorem c4_successor_rule_code_evaluation :
    parseCode [0x99, 0x00, 0x04, 0xbf, 0xb1]
      = .ok [(0, .ifEq 4), (3, .aThrow), (4, .return_)] ∧
    gen_control_flow_graph [(0, .ifEq 4), (3, .aThrow), (4, .return_)]
      = some [(0, ⟨[(0, .ifEq 4)], [4, 3]⟩),
              (3, ⟨[(3, .aThrow)], [4]⟩),
              (4, ⟨[(4, .return_)], []⟩)] ∧
    ([4] : List Nat) ≠ [] :=
  ⟨rfl, rfl, by decide⟩

/-- C5: lifting a block returns the statement list exactly when the symbolic
stack is empty after the last instruction, and a residual stack of `n > 0`
expressions turns into the `StackError::Remaining(n)` error. -/
theorem c5_residual_stack_error (b : Block) (pool : Pool) (stmts stk : List AST)
    (h : decompileLoop pool b.instructions [] [] = .ok (stmts, stk)) :
    (b.decompile pool = .ok stmts ↔ stk = []) ∧
    (0 < stk.length → b.decompile pool = .error (.stackError (.remaining stk.length))) := by
  unfold Block.decompile
  rw [h]
  cases stk with
  | nil => simp
  | cons a t => simp

/-- C5 witness: a block that pushes one constant and ends leaves one residual
expression, so lifting it fails with `Remaining 1`. -/
theorem c5_residual_stack_error_witness :
    Block.decompile ⟨[(0, .iconst 1)], []⟩ [] = .error (.stackError (.remaining 1)) :=
  (c5_residual_stack_error ⟨[(0, .iconst 1)], []⟩ [] [] [.integerConstant 1] rfl).2 (by decide)

/-- C6: the claim (and the spec's stated correct mapping) require `I2B` to
push a cast to Byte.  Evaluating the code: lifting `ILOAD_0, I2B, ISTORE_0`
produces a `PrimitiveCast` whose target type is `Float`, not `Byte` — the
bug the spec's design notes describe. -/
theorem c6_i2b_cast_code_evaluation :
    Block.decompile ⟨[(0, .iLoad 0), (1, .i2b), (2, .iStore 0)], []⟩ []
      = .ok [.set 0 (.primitiveCast (.variable 0 .int) .float)] ∧
    ¬ Block.decompile ⟨[(0, .iLoad 0), (1, .i2b), (2, .iStore 0)], []⟩ []
      = .ok [.set 0 (.primitiveCast (.variable 0 .int) .byte)] := by
  refine ⟨rfl, fun h => ?_⟩
  have h2 : (Except.ok [AST.set 0 (.primitiveCast (.variable 0 .int) .float)] :
      Except DecompileErr (List AST))
      = .ok [.set 0 (.primitiveCast (.variable 0 .int) .byte)] := h
  simp at h2

/-- C7: in every successfully read constant pool, a `Long` or `Double`
constant stored at index `k` leaves index `k + 1` absent, and reading the
wire sequence `[Integer(1), Long(2), Integer(3)]` populates exactly indices
1, 2 and 4. -/
theorem c7_long_double_index_gap :
    (∀ (r : Reader) (pool : Pool) (r' : Reader), readConstantPool r = .ok (pool, r') →
      ∀ (k : Nat) (c : Constant), poolGet pool k = some c → isCat2 c = true →
        poolGet pool (k + 1) = none) ∧
    readConstantPool ⟨0, c7Bytes⟩ = .ok (c7Pool, ⟨21, []⟩) ∧
    poolGet c7Pool 1 = some (.integer 1) ∧
    poolGet c7Pool 2 = some (.long 2) ∧
    poolGet c7Pool 3 = none ∧
    poolGet c7Pool 4 = some (.integer 3) ∧
    poolGet c7Pool 5 = none ∧
    c7Pool.map Prod.fst = [4, 2, 1] :=
  ⟨fun r pool r' h k c hk hc => readConstantPool_gap r pool r' h k c hk hc,
   rfl, rfl, rfl, rfl, rfl, rfl, rfl⟩

/-- C7 witness: instantiating the invariant on the S6 wire stream at the
`Long` entry `k = 2` shows index 3 is absent. -/
theorem c7_long_double_index_gap_witness :
    poolGet c7Pool 3 = none :=
  c7_long_double_index_gap.1 ⟨0, c7Bytes⟩ c7Pool ⟨21, []⟩ rfl 2 (.long 2) rfl rfl

/-- C8: the claim requires `ClassPath.from("a/b/C$D")` to render back to the
internal slash form `a/b/C$D`.  The package-dotted rendering, simple name and
enclosing chain are as claimed, but `internal_path` starts from the
dot-joined `package_str`, so it renders `a.b/C$D` and not `a/b/C$D`. -/
theorem c8_classpath_renderings_code_evaluation :
    (ClassPath.from_ ['a', '/', 'b', '/', 'C', '$', 'D']).package_str = ['a', '.', 'b'] ∧
    (ClassPath.from_ ['a', '/', 'b', '/', 'C', '$', 'D']).name = ['D'] ∧
    (ClassPath.from_ ['a', '/', 'b', '/', 'C', '$', 'D']).outer_classes = [['C']] ∧
    (ClassPath.from_ ['a', '/', 'b', '/', 'C', '$', 'D']).internal_path
      = ['a', '.', 'b', '/', 'C', '$', 'D'] ∧
    (ClassPath.from_ ['a', '/', 'b', '/', 'C', '$', 'D']).internal_path
      ≠ ['a', '/', 'b', '/', 'C', '$', 'D'] := by
  refine ⟨rfl, rfl, rfl, rfl, ?_⟩
  decide

/-- C9: the claim asserts parse-then-render is the identity on well-formed
descriptors, with `(IJ)Ljava/lang/String;` as witness.  Rendering the parse
of that very string returns `(IJ)Ljava.lang/String;` — the class path's
package comes back dot-joined through `internal_path` — so the round-trip
fails on the spec's own example. -/
theorem c9_descriptor_roundtrip_code_evaluation :
    (Descriptor.parse c9DescStr).to_internal_java = c9Rendered ∧
    (Descriptor.parse c9DescStr).to_internal_java ≠ c9DescStr := by
  refine ⟨rfl, ?_⟩
  decide

/-- C10: a block in which `DUP_X1` executes while the symbolic stack holds
exactly one expression makes the lifter panic (modelled `panicked`) on the
underflowing insertion index `len - 2`, rather than fail with a stack error:
block lifting is not total. -/
theorem c10_dupx1_panic :
    Block.decompile ⟨[(0, .iLoad 0), (1, .dupX1)], []⟩ [] = .error .panicked ∧
    ∀ e : StackErr,
      Block.decompile ⟨[(0, .iLoad 0), (1, .dupX1)], []⟩ [] ≠ .error (.stackError e) := by
  refine ⟨rfl, fun e h => ?_⟩
  have h2 : (Except.error DecompileErr.panicked : Except DecompileErr (List AST))
      = .error (.stackError e) := h
  simp at h2
